import Mathlib

/-!
Verification of `nncf/common/tensor_statistics/statistics.py`: the five
tensor-statistic value types (`MinMax`, `Mean`, `MedianMAD`, `Percentile`,
`Raw`) and their tolerance-based equality operations.

Modelling choices:
* Python tensors are modelled as `List ℚ` (rational numbers stand in for
  floats; the claims under study are about control flow and which tolerance
  is passed, not float rounding).
* `tensor_eq` is an `abstractmethod` with no implementation in the file, so
  every `__eq__` embedding is parametrised by
  `teq : Tensor → Tensor → ℚ → Bool`; the third argument is the `rtol`
  actually received by the backend.  A call `self.tensor_eq(a, b)` that
  passes no tolerance becomes `teq a b rtolDefault`, `rtolDefault` being the
  `1e-6` default of the abstract signature.
* Python's `NotImplemented` sentinel and a possible `KeyError` are made
  explicit in the result type `EqResult`.
* A Python `dict` is modelled as an association list; Python guarantees key
  uniqueness, which theorems assume through a `Nodup` hypothesis where needed.
-/

/-- Tensors as flat numeric arrays (rationals standing in for floats). -/
abbrev Tensor := List ℚ

/-- The `rtol = 1e-6` default of the abstract `tensor_eq` signature, written
as an explicit fraction so that the kernel can compute with it (see
`rtolDefault_eq`). -/
def rtolDefault : ℚ := ⟨1, 1000000, by norm_num, by norm_num⟩

/-- The `rtol = 1e-9` default declared by `PercentileTensorStatistic.__eq__`
(see `rtolPercentileDefault_eq`). -/
def rtolPercentileDefault : ℚ := ⟨1, 1000000000, by norm_num, by norm_num⟩

/-- Record `MinMaxTensorStatistic`: fields `min_values`, `max_values`. -/
structure MinMaxTensorStatistic where
  min_values : Tensor
  max_values : Tensor
deriving DecidableEq

/-- Record `MeanTensorStatistic`: fields `mean_values` and `shape : List[int]`. -/
structure MeanTensorStatistic where
  mean_values : Tensor
  shape : List ℤ
deriving DecidableEq

/-- Record `MedianMADTensorStatistic`: fields `median_values`, `mad_values`. -/
structure MedianMADTensorStatistic where
  median_values : Tensor
  mad_values : Tensor
deriving DecidableEq

/-- Record `PercentileTensorStatistic`: field `percentile_vs_values_dict`, a Python
dict from percentile level to tensor, modelled as an association list in
insertion order. -/
structure PercentileTensorStatistic where
  percentile_vs_values_dict : List (ℚ × Tensor)
deriving DecidableEq

/-- Record `RawTensorStatistic`: field `values`. -/
structure RawTensorStatistic where
  values : Tensor
deriving DecidableEq

/-- The universe of operands an `__eq__` may receive: any of the five
statistic variants, or some unrelated Python object (abstracted by a tag). -/
inductive PyObj where
  | minMax (s : MinMaxTensorStatistic)
  | mean (s : MeanTensorStatistic)
  | medianMAD (s : MedianMADTensorStatistic)
  | percentile (s : PercentileTensorStatistic)
  | raw (s : RawTensorStatistic)
  | nonStatistic (n : ℕ)
deriving DecidableEq

/-- Result of a Python `__eq__` call: a boolean, the `NotImplemented`
sentinel, or an uncaught exception (`KeyError` from a dict lookup). -/
inductive EqResult where
  | b (val : Bool)
  | notImplemented
  | exn
deriving DecidableEq

/-- The backend comparison primitive: `tensor_eq(t1, t2, rtol)`. -/
abbrev TeqImpl := Tensor → Tensor → ℚ → Bool

/-- Python dict lookup `d[k]` on the association-list model: first binding
wins; `none` models a `KeyError`. -/
def dictLookup (k : ℚ) : List (ℚ × Tensor) → Option Tensor
  | [] => none
  | (k', v) :: rest => if k = k' then some v else dictLookup k rest

/-- The keys of the dict, in insertion order (`d.keys()` / iteration order). -/
def dictKeys (d : List (ℚ × Tensor)) : List ℚ :=
  d.map Prod.fst

/-- Method `MinMaxTensorStatistic.__eq__`. -/
def MinMaxTensorStatistic.eq (teq : TeqImpl) (self : MinMaxTensorStatistic)
    (other : PyObj) : EqResult :=
  match other with
  | .minMax o =>
      .b (teq self.min_values o.min_values rtolDefault &&
          teq self.max_values o.max_values rtolDefault)
  | _ => .notImplemented

/-- The integer list `shape` as passed (unchanged) to the dynamically typed
`tensor_eq`; the embedding injects the integers into the tensor carrier. -/
def shapeToTensor (s : List ℤ) : Tensor :=
  s.map fun i => (i : ℚ)

/-- Method `MeanTensorStatistic.__eq__`. -/
def MeanTensorStatistic.eq (teq : TeqImpl) (self : MeanTensorStatistic)
    (other : PyObj) : EqResult :=
  match other with
  | .mean o =>
      .b (teq self.mean_values o.mean_values rtolDefault &&
          teq (shapeToTensor self.shape) (shapeToTensor o.shape) rtolDefault)
  | _ => .notImplemented

/-- Method `MedianMADTensorStatistic.__eq__`. -/
def MedianMADTensorStatistic.eq (teq : TeqImpl) (self : MedianMADTensorStatistic)
    (other : PyObj) : EqResult :=
  match other with
  | .medianMAD o =>
      .b (teq self.median_values o.median_values rtolDefault &&
          teq self.mad_values o.mad_values rtolDefault)
  | _ => .notImplemented

/-- The `for pct in self.percentile_vs_values_dict:` loop of
`PercentileTensorStatistic.__eq__`, iterating over `self`'s keys.  Note the
source calls `self.tensor_eq(...)` with NO explicit tolerance, hence
`rtolDefault`.  A failed lookup is a `KeyError` (`.exn`). -/
def percentileLoop (teq : TeqImpl) (s o : List (ℚ × Tensor)) :
    List ℚ → EqResult
  | [] => .b true
  | pct :: rest =>
      match dictLookup pct s, dictLookup pct o with
      | some v, some w =>
          if teq v w rtolDefault then percentileLoop teq s o rest else .b false
      | _, _ => .exn

/-- Method `PercentileTensorStatistic.__eq__(self, other, rtol=1e-9)`.  The `rtol`
parameter is in the signature of the source but is never read by the body;
`Counter(keys) != Counter(keys)` is multiset inequality of the key lists. -/
def PercentileTensorStatistic.eq (teq : TeqImpl)
    (self : PercentileTensorStatistic) (other : PyObj) (rtol : ℚ) : EqResult :=
  match other with
  | .percentile o =>
      if Multiset.ofList (dictKeys self.percentile_vs_values_dict) ≠
         Multiset.ofList (dictKeys o.percentile_vs_values_dict) then .b false
      else
        percentileLoop teq self.percentile_vs_values_dict
          o.percentile_vs_values_dict (dictKeys self.percentile_vs_values_dict)
  | _ => .notImplemented

/-- Method `RawTensorStatistic.__eq__`. -/
def RawTensorStatistic.eq (teq : TeqImpl) (self : RawTensorStatistic)
    (other : PyObj) : EqResult :=
  match other with
  | .raw o => .b (teq self.values o.values rtolDefault)
  | _ => .notImplemented

/-- Dispatch of `x.__eq__(y)` over the operand universe.  The percentile
variant is invoked with its declared default `rtol = 1e-9`.  For an object
that is no statistic, CPython's `object.__eq__` yields `NotImplemented` for
operands that are not the identical object (identity is not modelled; two
model values are taken to be distinct objects). -/
def PyObj.eqOp (teq : TeqImpl) : PyObj → PyObj → EqResult
  | .minMax s, o => s.eq teq o
  | .mean s, o => s.eq teq o
  | .medianMAD s, o => s.eq teq o
  | .percentile s, o => s.eq teq o rtolPercentileDefault
  | .raw s, o => s.eq teq o
  | .nonStatistic _, _ => .notImplemented

/-- The full Python `x == y` protocol: try `x.__eq__(y)`; on
`NotImplemented` try the reflected `y.__eq__(x)`; if both decline, fall back
to identity, which is `False` for distinct objects. -/
def pyEq (teq : TeqImpl) (x y : PyObj) : EqResult :=
  match PyObj.eqOp teq x y with
  | .b r => .b r
  | .exn => .exn
  | .notImplemented =>
      match PyObj.eqOp teq y x with
      | .b r => .b r
      | .exn => .exn
      | .notImplemented => .b false

/-- Modelled from the spec: the backend implementation of the abstract
`tensor_eq` is not part of this repository; §4.1 specifies element-wise
relative-tolerance comparison with shape mismatch treated as inequality.
Used as one concrete instantiation of `TeqImpl` for witnesses. -/
def tensorEqRef (t1 t2 : Tensor) (rtol : ℚ) : Bool :=
  decide (t1.length = t2.length) &&
  (t1.zip t2).all fun p => decide (|p.1 - p.2| ≤ rtol * |p.2|)

/-- Variant tag, to state "same variant" / "different variant". -/
def PyObj.tag : PyObj → ℕ
  | .minMax _ => 0
  | .mean _ => 1
  | .medianMAD _ => 2
  | .percentile _ => 3
  | .raw _ => 4
  | .nonStatistic _ => 5

/-- Whether the object is one of the five statistic variants. -/
def PyObj.isStat : PyObj → Bool
  | .nonStatistic _ => false
  | _ => true

/-- The comparison performed by one iteration of the percentile loop for a
given key: look the key up in both dicts and apply `tensor_eq` at the `1e-6`
default that the body actually passes.  (The `false` branches are
unreachable when the key occurs in both dicts.) -/
def loopCheck (teq : TeqImpl) (s o : List (ℚ × Tensor)) (pct : ℚ) : Bool :=
  match dictLookup pct s, dictLookup pct o with
  | some v, some w => teq v w rtolDefault
  | _, _ => false

/-- State-passing translation of the `for` loop of
`PercentileTensorStatistic.__eq__`: the state is the pair of dict payloads
reachable from the two operands; every statement of the loop body is a read
or a call, so each step passes the state it received onward. -/
def percentileLoopSt (teq : TeqImpl) :
    List (ℚ × Tensor) × List (ℚ × Tensor) → List ℚ →
      EqResult × (List (ℚ × Tensor) × List (ℚ × Tensor))
  | st, [] => (.b true, st)
  | st, pct :: rest =>
      match dictLookup pct st.1, dictLookup pct st.2 with
      | some v, some w =>
          if teq v w rtolDefault then percentileLoopSt teq st rest
          else (.b false, st)
      | _, _ => (.exn, st)

/-- State-passing translation of `x.__eq__(y)`: the operand objects are the
state threaded through the call.  Every statement of every `__eq__` body in
the source is an `isinstance` test, an attribute read, a `tensor_eq` call or
a `return`; none assigns to a field, so each translated statement passes the
operands through.  For the percentile variant the operand visible after the
call is reassembled from the dict state threaded through the loop. -/
def PyObj.eqOpSt (teq : TeqImpl) (x y : PyObj) : EqResult × PyObj × PyObj :=
  match x, y with
  | .minMax s, .minMax o =>
      (.b (teq s.min_values o.min_values rtolDefault &&
           teq s.max_values o.max_values rtolDefault), .minMax s, .minMax o)
  | .mean s, .mean o =>
      (.b (teq s.mean_values o.mean_values rtolDefault &&
           teq (shapeToTensor s.shape) (shapeToTensor o.shape) rtolDefault),
       .mean s, .mean o)
  | .medianMAD s, .medianMAD o =>
      (.b (teq s.median_values o.median_values rtolDefault &&
           teq s.mad_values o.mad_values rtolDefault), .medianMAD s, .medianMAD o)
  | .percentile s, .percentile o =>
      if Multiset.ofList (dictKeys s.percentile_vs_values_dict) ≠
         Multiset.ofList (dictKeys o.percentile_vs_values_dict) then
        (.b false, .percentile s, .percentile o)
      else
        match percentileLoopSt teq
            (s.percentile_vs_values_dict, o.percentile_vs_values_dict)
            (dictKeys s.percentile_vs_values_dict) with
        | (r, st) => (r, .percentile ⟨st.1⟩, .percentile ⟨st.2⟩)
  | .raw s, .raw o => (.b (teq s.values o.values rtolDefault), .raw s, .raw o)
  | x, y => (.notImplemented, x, y)

/-- Modelled from the spec: the comparison §4.4 describes for the percentile
variant — key multisets must agree exactly, and every key's value tensors
are compared with `tensor_eq` at the tighter `1e-9` tolerance. -/
def percentileEqSpec (teq : TeqImpl) (s o : PercentileTensorStatistic) : Bool :=
  decide (Multiset.ofList (dictKeys s.percentile_vs_values_dict) =
          Multiset.ofList (dictKeys o.percentile_vs_values_dict)) &&
  (dictKeys s.percentile_vs_values_dict).all fun pct =>
    match dictLookup pct s.percentile_vs_values_dict,
          dictLookup pct o.percentile_vs_values_dict with
    | some v, some w => teq v w rtolPercentileDefault
    | _, _ => false

/-- A backend `tensor_eq` that accepts everything (used for witnesses). -/
def teqTrue : TeqImpl := fun _ _ _ => true

/-- A backend `tensor_eq` that reports the tolerance it was handed: it
accepts exactly when called at the general `1e-6` default. -/
def teqProbe : TeqImpl := fun _ _ r => decide (r = rtolDefault)

/-- Percentile statistic `{50.0: [1.0]}`. -/
def pctA : PercentileTensorStatistic := ⟨[(50, [1])]⟩

/-- Percentile statistic `{50.0: [1.00000001]}`: the value deviates from
`pctA`'s by a relative `1e-8` — inside the general `1e-6` tolerance but
outside the `1e-9` one. -/
def pctB : PercentileTensorStatistic := ⟨[(50, [1 + 1/100000000])]⟩

/-- Percentile statistic `{50.0: [1.0], 99.0: [9.0]}`. -/
def pctC : PercentileTensorStatistic := ⟨[(50, [1]), (99, [9])]⟩

/-- Statistic `pctC` with the two entries inserted in the opposite order. -/
def pctCrev : PercentileTensorStatistic := ⟨[(99, [9]), (50, [1])]⟩

/-- Percentile statistic `{50.0: [1.0], 98.0: [9.0]}`: same value at key 50
as `pctC`, but a different second key. -/
def pctD : PercentileTensorStatistic := ⟨[(50, [1]), (98, [9])]⟩

/-- A concrete MinMax statistic for witnesses. -/
def mmEx : MinMaxTensorStatistic := ⟨[1, 2], [3, 4]⟩

/-- A concrete Raw statistic for witnesses. -/
def rawEx : RawTensorStatistic := ⟨[5, 6]⟩

/-- A concrete MedianMAD statistic for witnesses. -/
def madEx : MedianMADTensorStatistic := ⟨[1], [2]⟩

/-- A concrete Mean statistic for witnesses. -/
def meanEx : MeanTensorStatistic := ⟨[1, 2], [2]⟩

/-! ## Helper lemmas -/

theorem rtolDefault_eq : rtolDefault = 1 / 1000000 := by
  rw [rtolDefault, Rat.mk'_eq_divInt, Rat.divInt_eq_div]; norm_num

theorem rtolPercentileDefault_eq : rtolPercentileDefault = 1 / 1000000000 := by
  rw [rtolPercentileDefault, Rat.mk'_eq_divInt, Rat.divInt_eq_div]; norm_num

theorem dictLookup_eq_none {k : ℚ} {d : List (ℚ × Tensor)}
    (h : k ∉ dictKeys d) : dictLookup k d = none := by
  induction d with
  | nil => rfl
  | cons p rest ih =>
      obtain ⟨k', v⟩ := p
      simp only [dictKeys, List.map_cons, List.mem_cons, not_or] at h
      simp only [dictLookup, if_neg h.1]
      exact ih h.2

theorem dictLookup_isSome {k : ℚ} {d : List (ℚ × Tensor)}
    (h : k ∈ dictKeys d) : ∃ v, dictLookup k d = some v := by
  induction d with
  | nil => simp [dictKeys] at h
  | cons p rest ih =>
      obtain ⟨k', v⟩ := p
      by_cases hk : k = k'
      · exact ⟨v, by simp [dictLookup, hk]⟩
      · simp only [dictKeys, List.map_cons, List.mem_cons] at h
        rcases h with h | h
        · exact absurd h hk
        · obtain ⟨w, hw⟩ := ih h
          exact ⟨w, by simp [dictLookup, hk, hw]⟩

theorem mem_of_dictLookup {k : ℚ} {v : Tensor} {d : List (ℚ × Tensor)}
    (h : dictLookup k d = some v) : (k, v) ∈ d := by
  induction d with
  | nil => simp [dictLookup] at h
  | cons p rest ih =>
      obtain ⟨k', w⟩ := p
      by_cases hk : k = k'
      · subst hk
        simp only [dictLookup, eq_self_iff_true, if_true, Option.some.injEq] at h
        subst h
        exact List.mem_cons_self _ _
      · simp only [dictLookup, if_neg hk] at h
        exact List.mem_cons_of_mem _ (ih h)

theorem dictLookup_of_mem {k : ℚ} {v : Tensor} {d : List (ℚ × Tensor)}
    (hnd : (dictKeys d).Nodup) (h : (k, v) ∈ d) : dictLookup k d = some v := by
  induction d with
  | nil => simp at h
  | cons p rest ih =>
      obtain ⟨k', w⟩ := p
      simp only [dictKeys, List.map_cons, List.nodup_cons] at hnd
      rcases List.mem_cons.mp h with h1 | h1
      · obtain ⟨hk, hv⟩ := Prod.mk.injEq .. ▸ h1
        subst hk; subst hv
        simp [dictLookup]
      · have hk : k ≠ k' := by
          intro he; subst he
          exact hnd.1 (List.mem_map.mpr ⟨(k, v), h1, rfl⟩)
        simp only [dictLookup, if_neg hk]
        exact ih hnd.2 h1

theorem dictLookup_perm {d d' : List (ℚ × Tensor)} (hnd : (dictKeys d).Nodup)
    (hp : d.Perm d') (k : ℚ) : dictLookup k d = dictLookup k d' := by
  have hkp : (dictKeys d).Perm (dictKeys d') := hp.map Prod.fst
  have hnd' : (dictKeys d').Nodup := hkp.nodup hnd
  cases hv : dictLookup k d with
  | none =>
      have hnm : k ∉ dictKeys d := by
        intro hm
        obtain ⟨w, hw⟩ := dictLookup_isSome hm
        rw [hv] at hw
        exact Option.noConfusion hw
      exact (dictLookup_eq_none fun hm => hnm (hkp.mem_iff.mpr hm)).symm
  | some v =>
      exact (dictLookup_of_mem hnd' (hp.subset (mem_of_dictLookup hv))).symm

theorem perm_all {l l' : List ℚ} (h : l.Perm l') (p : ℚ → Bool) :
    l.all p = l'.all p := by
  induction h with
  | nil => rfl
  | cons x _ ih => simp [List.all_cons, ih]
  | swap x y l => simp [List.all_cons, Bool.and_left_comm]
  | trans _ _ ih1 ih2 => rw [ih1, ih2]

theorem all_congr_mem {l : List ℚ} {p q : ℚ → Bool} (h : ∀ x ∈ l, p x = q x) :
    l.all p = l.all q := by
  induction l with
  | nil => rfl
  | cons a t ih =>
      simp only [List.all_cons, h a (List.mem_cons_self a t),
        ih fun x hx => h x (List.mem_cons_of_mem a hx)]

theorem percentileLoop_eq_all (teq : TeqImpl) {s o : List (ℚ × Tensor)}
    {ks : List ℚ} (h : ∀ pct ∈ ks, pct ∈ dictKeys s ∧ pct ∈ dictKeys o) :
    percentileLoop teq s o ks = .b (ks.all (loopCheck teq s o)) := by
  induction ks with
  | nil => rfl
  | cons pct rest ih =>
      obtain ⟨hs, ho⟩ := h pct (List.mem_cons_self _ _)
      obtain ⟨v, hv⟩ := dictLookup_isSome hs
      obtain ⟨w, hw⟩ := dictLookup_isSome ho
      have hrest := ih fun q hq => h q (List.mem_cons_of_mem _ hq)
      by_cases ht : teq v w rtolDefault
      · simp [percentileLoop, hv, hw, ht, hrest, List.all_cons, loopCheck]
      · simp [percentileLoop, hv, hw, ht, List.all_cons, loopCheck]

theorem percentileEq_char (teq : TeqImpl) {s o : PercentileTensorStatistic}
    (r : ℚ)
    (h : Multiset.ofList (dictKeys s.percentile_vs_values_dict) =
         Multiset.ofList (dictKeys o.percentile_vs_values_dict)) :
    s.eq teq (.percentile o) r =
      .b ((dictKeys s.percentile_vs_values_dict).all
          (loopCheck teq s.percentile_vs_values_dict
            o.percentile_vs_values_dict)) := by
  have hperm : (dictKeys s.percentile_vs_values_dict).Perm
      (dictKeys o.percentile_vs_values_dict) := Multiset.coe_eq_coe.mp h
  simp only [PercentileTensorStatistic.eq]
  rw [if_neg (not_not_intro h)]
  exact percentileLoop_eq_all teq fun pct hpct => ⟨hpct, hperm.mem_iff.mp hpct⟩

theorem tensorEqRef_pair_true :
    tensorEqRef [1] [1 + 1/100000000] rtolDefault = true := by
  simp only [tensorEqRef, List.length_cons, List.length_nil, List.zip,
    List.zipWith, List.all_cons, List.all_nil, Bool.and_true,
    decide_eq_true_eq, Bool.and_eq_true, rtolDefault_eq]
  refine ⟨trivial, ?_⟩
  rw [show (1 : ℚ) - (1 + 1/100000000) = -(1/100000000) by ring, abs_neg,
    abs_of_nonneg (by norm_num : (0 : ℚ) ≤ 1/100000000),
    abs_of_nonneg (by norm_num : (0 : ℚ) ≤ 1 + 1/100000000)]
  norm_num

theorem tensorEqRef_pair_false :
    tensorEqRef [1] [1 + 1/100000000] rtolPercentileDefault = false := by
  simp only [tensorEqRef, List.zip, List.zipWith, List.all_cons, List.all_nil,
    Bool.and_true, decide_eq_true_eq, Bool.and_eq_false_imp,
    decide_eq_false_iff_not, not_le]
  intro _
  rw [rtolPercentileDefault_eq,
    show (1 : ℚ) - (1 + 1/100000000) = -(1/100000000) by ring, abs_neg,
    abs_of_nonneg (by norm_num : (0 : ℚ) ≤ 1/100000000),
    abs_of_nonneg (by norm_num : (0 : ℚ) ≤ 1 + 1/100000000)]
  norm_num

theorem percentileLoopSt_spec (teq : TeqImpl)
    (st : List (ℚ × Tensor) × List (ℚ × Tensor)) (ks : List ℚ) :
    percentileLoopSt teq st ks = (percentileLoop teq st.1 st.2 ks, st) := by
  induction ks with
  | nil => rfl
  | cons pct rest ih =>
      simp only [percentileLoopSt, percentileLoop]
      cases dictLookup pct st.1 with
      | none => rfl
      | some v =>
          cases dictLookup pct st.2 with
          | none => rfl
          | some w =>
              by_cases ht : teq v w rtolDefault <;> simp [ht, ih]

/-! ## Claim theorems -/

/-- Claim C1 (code bug): the claim — and the `rtol=1e-9` default declared in
the signature of `PercentileTensorStatistic.__eq__` — say the per-key value
tensors are compared at the tighter tolerance `1e-9`; the body, however,
calls `self.tensor_eq(...)` without forwarding `rtol`, so the values are
compared at the general `1e-6` default.  Concretely: with the spec's
relative-tolerance backend, `{50.0: [1.0]}` and `{50.0: [1.00000001]}`
(relative deviation `1e-8`) compare equal under the code, although the
backend at `1e-9` rejects exactly this value pair, and the comparison the
spec describes (`percentileEqSpec`) rejects the two statistics. -/
theorem percentile_values_rtol_divergence :
    PercentileTensorStatistic.eq tensorEqRef pctA (.percentile pctB)
      rtolPercentileDefault = .b true ∧
    tensorEqRef [1] [1 + 1/100000000] rtolPercentileDefault = false ∧
    percentileEqSpec tensorEqRef pctA pctB = false := by
  refine ⟨?_, tensorEqRef_pair_false, ?_⟩
  · have hm : Multiset.ofList (dictKeys pctA.percentile_vs_values_dict) =
        Multiset.ofList (dictKeys pctB.percentile_vs_values_dict) := by decide
    rw [percentileEq_char tensorEqRef rtolPercentileDefault hm]
    simp only [pctA, pctB, dictKeys, List.map_cons, List.map_nil,
      List.all_cons, List.all_nil, loopCheck, dictLookup, if_pos rfl,
      Bool.and_true, EqResult.b.injEq]
    exact tensorEqRef_pair_true
  · simp only [percentileEqSpec, pctA, pctB, dictKeys, List.map_cons,
      List.map_nil, List.all_cons, List.all_nil, dictLookup,
      eq_self_iff_true, if_true, decide_True, Bool.true_and, Bool.and_true,
      tensorEqRef_pair_false, Bool.and_false]

/-- Claim C2: for every statistic instance `x` and every operand `y` that is
not of `x`'s own variant, `x.__eq__(y)` returns the `NotImplemented`
sentinel — never a raised exception; and the full `==` protocol treats
`MinMax == Raw` as not-equal without throwing. -/
theorem cross_variant_not_comparable (teq : TeqImpl) :
    (∀ x y : PyObj, x.isStat = true → x.tag ≠ y.tag →
        PyObj.eqOp teq x y = .notImplemented) ∧
    (∀ (a : MinMaxTensorStatistic) (b : RawTensorStatistic),
        pyEq teq (.minMax a) (.raw b) = .b false) := by
  constructor
  · intro x y hstat htag
    cases x <;> cases y <;>
      first
      | rfl
      | (simp [PyObj.tag] at htag)
      | (simp [PyObj.isStat] at hstat)
  · intro a b; rfl

/-- Witness for C2 at concrete inputs. -/
theorem cross_variant_not_comparable_witness :
    PyObj.eqOp teqTrue (.minMax mmEx) (.raw rawEx) = .notImplemented ∧
    pyEq teqTrue (.minMax mmEx) (.raw rawEx) = .b false :=
  ⟨(cross_variant_not_comparable teqTrue).1 (.minMax mmEx) (.raw rawEx) rfl
      (by decide),
   (cross_variant_not_comparable teqTrue).2 mmEx rawEx⟩

/-- Claim C3: if the key multisets of two percentile statistics differ, the
comparison is `False` immediately, and in particular is independent of the
backend `tensor_eq` (no value tensor is ever compared). -/
theorem percentile_keyset_mismatch_false (teq teq' : TeqImpl)
    (s o : PercentileTensorStatistic) (r r' : ℚ)
    (h : Multiset.ofList (dictKeys s.percentile_vs_values_dict) ≠
         Multiset.ofList (dictKeys o.percentile_vs_values_dict)) :
    s.eq teq (.percentile o) r = .b false ∧
    s.eq teq (.percentile o) r = s.eq teq' (.percentile o) r' := by
  refine ⟨?_, ?_⟩ <;> simp only [PercentileTensorStatistic.eq] <;>
    rw [if_pos h] <;> rw [if_pos h]

/-- Witness for C3: the spec's example with keys `{50, 99}` vs `{50, 98}`. -/
theorem percentile_keyset_mismatch_false_witness :
    PercentileTensorStatistic.eq teqTrue pctC (.percentile pctD)
      rtolPercentileDefault = .b false ∧
    PercentileTensorStatistic.eq teqTrue pctC (.percentile pctD)
        rtolPercentileDefault =
      PercentileTensorStatistic.eq teqProbe pctC (.percentile pctD)
        rtolDefault :=
  percentile_keyset_mismatch_false teqTrue teqProbe pctC pctD
    rtolPercentileDefault rtolDefault (by decide)

/-- Claim C4: for percentile statistics holding the same key/value pairs,
the result of the comparison does not depend on the dictionaries' insertion
order (nor on the unused `rtol` argument). -/
theorem percentile_order_independence (teq : TeqImpl)
    {s s' o o' : PercentileTensorStatistic} (r r' : ℚ)
    (hs : s.percentile_vs_values_dict.Perm s'.percentile_vs_values_dict)
    (ho : o.percentile_vs_values_dict.Perm o'.percentile_vs_values_dict)
    (hnds : (dictKeys s.percentile_vs_values_dict).Nodup)
    (hndo : (dictKeys o.percentile_vs_values_dict).Nodup) :
    s.eq teq (.percentile o) r = s'.eq teq (.percentile o') r' := by
  have hks : (dictKeys s.percentile_vs_values_dict).Perm
      (dictKeys s'.percentile_vs_values_dict) := hs.map Prod.fst
  have hko : (dictKeys o.percentile_vs_values_dict).Perm
      (dictKeys o'.percentile_vs_values_dict) := ho.map Prod.fst
  by_cases h : Multiset.ofList (dictKeys s.percentile_vs_values_dict) =
      Multiset.ofList (dictKeys o.percentile_vs_values_dict)
  · have h' : Multiset.ofList (dictKeys s'.percentile_vs_values_dict) =
        Multiset.ofList (dictKeys o'.percentile_vs_values_dict) :=
      Multiset.coe_eq_coe.mpr
        ((hks.symm.trans (Multiset.coe_eq_coe.mp h)).trans hko)
    rw [percentileEq_char teq r h, percentileEq_char teq r' h']
    congr 1
    have hfun : loopCheck teq s'.percentile_vs_values_dict
        o'.percentile_vs_values_dict = loopCheck teq
        s.percentile_vs_values_dict o.percentile_vs_values_dict := by
      funext pct
      unfold loopCheck
      rw [dictLookup_perm hnds hs pct, dictLookup_perm hndo ho pct]
    rw [hfun]
    exact perm_all hks _
  · have h' : Multiset.ofList (dictKeys s'.percentile_vs_values_dict) ≠
        Multiset.ofList (dictKeys o'.percentile_vs_values_dict) := by
      intro he
      exact h (Multiset.coe_eq_coe.mpr
        ((hks.trans (Multiset.coe_eq_coe.mp he)).trans hko.symm))
    simp only [PercentileTensorStatistic.eq]
    rw [if_pos h, if_pos h']

/-- Witness for C4: the spec's order-independence example, with the two
entries of `pctC` inserted in the opposite order. -/
theorem percentile_order_independence_witness :
    PercentileTensorStatistic.eq teqTrue pctC (.percentile pctC)
        rtolPercentileDefault =
      PercentileTensorStatistic.eq teqTrue pctC (.percentile pctCrev)
        rtolDefault :=
  percentile_order_independence teqTrue rtolPercentileDefault rtolDefault
    (List.Perm.refl _) (by decide) (by decide) (by decide)

/-- Claim C5: for the non-dictionary variants, same-variant comparison is
`True` exactly when `tensor_eq` (at its `1e-6` default) accepts every
corresponding field pair: `min`/`max` for MinMax, `median`/`mad` for
MedianMAD, `values` for Raw. -/
theorem nondict_variant_eq_iff (teq : TeqImpl) (a b : MinMaxTensorStatistic)
    (c d : MedianMADTensorStatistic) (e f : RawTensorStatistic) :
    (PyObj.eqOp teq (.minMax a) (.minMax b) = .b true ↔
      (teq a.min_values b.min_values rtolDefault = true ∧
       teq a.max_values b.max_values rtolDefault = true)) ∧
    (PyObj.eqOp teq (.medianMAD c) (.medianMAD d) = .b true ↔
      (teq c.median_values d.median_values rtolDefault = true ∧
       teq c.mad_values d.mad_values rtolDefault = true)) ∧
    (PyObj.eqOp teq (.raw e) (.raw f) = .b true ↔
      teq e.values f.values rtolDefault = true) := by
  refine ⟨?_, ?_, ?_⟩ <;>
    simp [PyObj.eqOp, MinMaxTensorStatistic.eq, MedianMADTensorStatistic.eq,
      RawTensorStatistic.eq]

/-- Witness for C5 at concrete inputs. -/
theorem nondict_variant_eq_iff_witness :
    PyObj.eqOp teqTrue (.minMax mmEx) (.minMax mmEx) = .b true :=
  (nondict_variant_eq_iff teqTrue mmEx mmEx madEx madEx rawEx rawEx).1.mpr
    ⟨rfl, rfl⟩

/-- Claim C6: Mean comparison is `tensor_eq` on `mean_values` conjoined with
`tensor_eq` on `shape` — the integer shape list goes through the very same
tolerant primitive (the same `teq`, at the same `1e-6` default), with no
separate exact-integer path. -/
theorem mean_eq_via_tensor_eq (teq : TeqImpl) (a b : MeanTensorStatistic) :
    PyObj.eqOp teq (.mean a) (.mean b) =
      .b (teq a.mean_values b.mean_values rtolDefault &&
          teq (shapeToTensor a.shape) (shapeToTensor b.shape) rtolDefault) ∧
    (PyObj.eqOp teq (.mean a) (.mean b) = .b true ↔
      (teq a.mean_values b.mean_values rtolDefault = true ∧
       teq (shapeToTensor a.shape) (shapeToTensor b.shape) rtolDefault =
         true)) := by
  refine ⟨rfl, ?_⟩
  simp [PyObj.eqOp, MeanTensorStatistic.eq]

/-- Witness for C6 at concrete inputs. -/
theorem mean_eq_via_tensor_eq_witness :
    PyObj.eqOp teqTrue (.mean meanEx) (.mean meanEx) = .b true :=
  (mean_eq_via_tensor_eq teqTrue meanEx meanEx).2.mpr ⟨rfl, rfl⟩

/-- Claim C7: if the backend `tensor_eq` is symmetric at every tolerance,
then `__eq__` is symmetric on operands of the same variant. -/
theorem eqOp_symm_of_teq_symm (teq : TeqImpl)
    (hsym : ∀ a b r, teq a b r = teq b a r) (x y : PyObj)
    (htag : x.tag = y.tag) :
    PyObj.eqOp teq x y = PyObj.eqOp teq y x := by
  cases x <;> cases y <;> (try (simp [PyObj.tag] at htag)) <;> (try rfl)
  case minMax.minMax s o =>
    simp [PyObj.eqOp, MinMaxTensorStatistic.eq,
      hsym s.min_values o.min_values rtolDefault,
      hsym s.max_values o.max_values rtolDefault]
  case mean.mean s o =>
    simp [PyObj.eqOp, MeanTensorStatistic.eq,
      hsym s.mean_values o.mean_values rtolDefault,
      hsym (shapeToTensor s.shape) (shapeToTensor o.shape) rtolDefault]
  case medianMAD.medianMAD s o =>
    simp [PyObj.eqOp, MedianMADTensorStatistic.eq,
      hsym s.median_values o.median_values rtolDefault,
      hsym s.mad_values o.mad_values rtolDefault]
  case raw.raw s o =>
    simp [PyObj.eqOp, RawTensorStatistic.eq,
      hsym s.values o.values rtolDefault]
  case percentile.percentile s o =>
    show PercentileTensorStatistic.eq teq s (.percentile o)
        rtolPercentileDefault =
      PercentileTensorStatistic.eq teq o (.percentile s) rtolPercentileDefault
    by_cases h : Multiset.ofList (dictKeys s.percentile_vs_values_dict) =
        Multiset.ofList (dictKeys o.percentile_vs_values_dict)
    · have hperm : (dictKeys s.percentile_vs_values_dict).Perm
          (dictKeys o.percentile_vs_values_dict) := Multiset.coe_eq_coe.mp h
      rw [percentileEq_char teq rtolPercentileDefault h,
        percentileEq_char teq rtolPercentileDefault h.symm]
      congr 1
      have hcongr : ∀ pct ∈ dictKeys o.percentile_vs_values_dict,
          loopCheck teq s.percentile_vs_values_dict
            o.percentile_vs_values_dict pct =
          loopCheck teq o.percentile_vs_values_dict
            s.percentile_vs_values_dict pct := by
        intro pct hpct
        obtain ⟨v, hv⟩ := dictLookup_isSome (hperm.mem_iff.mpr hpct)
        obtain ⟨w, hw⟩ := dictLookup_isSome hpct
        simp only [loopCheck, hv, hw]
        exact hsym v w rtolDefault
      calc (dictKeys s.percentile_vs_values_dict).all
            (loopCheck teq s.percentile_vs_values_dict
              o.percentile_vs_values_dict)
          = (dictKeys o.percentile_vs_values_dict).all
              (loopCheck teq s.percentile_vs_values_dict
                o.percentile_vs_values_dict) := perm_all hperm _
        _ = (dictKeys o.percentile_vs_values_dict).all
              (loopCheck teq o.percentile_vs_values_dict
                s.percentile_vs_values_dict) := all_congr_mem hcongr
    · simp only [PercentileTensorStatistic.eq]
      rw [if_pos h, if_pos fun he => h he.symm]

/-- Witness for C7 at concrete inputs, with a symmetric backend. -/
theorem eqOp_symm_of_teq_symm_witness :
    PyObj.eqOp teqTrue (.percentile pctC) (.percentile pctCrev) =
      PyObj.eqOp teqTrue (.percentile pctCrev) (.percentile pctC) :=
  eqOp_symm_of_teq_symm teqTrue (fun _ _ _ => rfl)
    (.percentile pctC) (.percentile pctCrev) rfl

/-- Claim C8: the state-passing translation of every `__eq__` leaves both
operands (hence every stored field) unchanged, and computes the same result
as the stateless embedding: comparison is pure in its operands. -/
theorem eq_state_unchanged (teq : TeqImpl) (x y : PyObj) :
    (PyObj.eqOpSt teq x y).2.1 = x ∧ (PyObj.eqOpSt teq x y).2.2 = y ∧
    (PyObj.eqOpSt teq x y).1 = PyObj.eqOp teq x y := by
  cases x <;> cases y <;> try exact ⟨rfl, rfl, rfl⟩
  case percentile.percentile s o =>
    simp only [PyObj.eqOpSt, PyObj.eqOp, PercentileTensorStatistic.eq]
    by_cases h : Multiset.ofList (dictKeys s.percentile_vs_values_dict) ≠
        Multiset.ofList (dictKeys o.percentile_vs_values_dict)
    · rw [if_pos h, if_pos h]
      exact ⟨rfl, rfl, rfl⟩
    · rw [if_neg h, if_neg h, percentileLoopSt_spec]
      exact ⟨rfl, rfl, rfl⟩

/-- Claim C9: the result of `PercentileTensorStatistic.__eq__` does not
depend on its `rtol` argument — the parameter is declared but never
forwarded to `tensor_eq`. -/
theorem percentile_eq_rtol_independent (teq : TeqImpl)
    (s : PercentileTensorStatistic) (o : PyObj) (r1 r2 : ℚ) :
    s.eq teq o r1 = s.eq teq o r2 := rfl

/-- Claim C10: two percentile statistics with empty dictionaries compare
equal under every backend `tensor_eq` and every `rtol`: the key-multiset
check passes and the per-key loop is vacuous. -/
theorem percentile_empty_eq_true (teq : TeqImpl) (r : ℚ) :
    PercentileTensorStatistic.eq teq ⟨[]⟩ (.percentile ⟨[]⟩) r = .b true :=
  rfl

